import Mathlib

/-!
Verification development for the github-mcp-server repository.

The development shallowly embeds the log-analysis utilities (the downloader
downloadAndUnzip, the log analyzer analyzeBazelLogs with its two excerpt
extractors, the orchestrator analyzeWorkflowLogs) and the workflow API
wrappers (workflows.ts and ci_workflows.ts).  JavaScript strings are
modelled as lists of characters; the filesystem, the network and the unzip
process are modelled as explicit oracles passed to each function, so that
every embedded function is total and executable.  Thrown JavaScript
exceptions are modelled with Except, carrying the error message.
-/

namespace GithubMcp

/-- Character-by-character matcher at the start of a string: does pattern p
match the first characters of s, comparing characters through the
normalisation function norm (id for a case-sensitive check, Char.toLower
for a case-insensitive one)? -/
def matchesAt (norm : Char → Char) : List Char → List Char → Bool
  | [], _ => true
  | _ :: _, [] => false
  | a :: p, c :: s => (norm a == norm c) && matchesAt norm p s

/-- Substring search through the normalisation norm: whether pattern p
occurs anywhere in s.  With norm = id this models the JavaScript
String.prototype.includes; with norm = Char.toLower it models a
case-insensitive literal regex alternative. -/
def occursIn (norm : Char → Char) (p : List Char) : List Char → Bool
  | [] => matchesAt norm p []
  | c :: s => matchesAt norm p (c :: s) || occursIn norm p s

/-- JavaScript String.prototype.split with separator a newline character:
splits into the (possibly empty) chunks between newlines. -/
def splitLines : List Char → List (List Char)
  | [] => [[]]
  | c :: cs =>
    if c = '\n' then [] :: splitLines cs
    else
      match splitLines cs with
      | [] => [[c]]
      | l :: ls => (c :: l) :: ls

/-- The ASCII whitespace characters removed by JavaScript
String.prototype.trim. -/
def isJsSpace (c : Char) : Bool :=
  c == ' ' || c == '\t' || c == '\n' || c == '\r' || c == '\x0b' || c == '\x0c'

/-- JavaScript String.prototype.trim: drop leading and trailing whitespace. -/
def jsTrim (s : List Char) : List Char :=
  (((s.dropWhile isJsSpace).reverse).dropWhile isJsSpace).reverse

/-- JavaScript Array.prototype.slice(start, stop) for 0 ≤ start ≤ stop:
the elements with indices in [start, stop). -/
def jsSlice (l : List α) (start stop : Nat) : List α :=
  (l.drop start).take (stop - start)

/-- Index of the first element satisfying pred (JavaScript
Array.prototype.findIndex, with none for -1). -/
def firstIdx (pred : α → Bool) : List α → Option Nat
  | [] => none
  | a :: l => if pred a then some 0 else (firstIdx pred l).map (· + 1)

/-- The alternatives of the error regex
ERROR:|FAILED:|Exception:|error:|failed:|BUILD FAILED used (with the i
flag) by extractErrorDetails in log-analyzer.ts. -/
def errorPatternAlts : List (List Char) :=
  ["ERROR:".data, "FAILED:".data, "Exception:".data,
   "error:".data, "failed:".data, "BUILD FAILED".data]

/-- Whether the error regex (case-insensitive alternation of
errorPatternAlts) matches somewhere in s: models s.match(pattern) being
non-null in extractErrorDetails. -/
def matchesErrorPattern (s : List Char) : Bool :=
  errorPatternAlts.any (fun p => occursIn Char.toLower p s)

/-- The trailing 500-character fallback of extractErrorDetails:
content.substring(0, 500) + (content.length > 500 ? three dots : empty). -/
def firstChars (content : List Char) : List Char :=
  content.take 500 ++ (if 500 < content.length then "...".data else [])

/-- extractErrorDetails from log-analyzer.ts: if the error regex matches,
take the first line matching it and the window of up to 10 lines starting
there, joined with newlines; otherwise the first 500 characters with an
ellipsis when the content is longer. -/
def extractErrorDetails (content : List Char) : List Char :=
  if matchesErrorPattern content then
    match firstIdx (fun line => matchesErrorPattern line) (splitLines content) with
    | some errorLineIndex =>
      List.intercalate ['\n']
        (jsSlice (splitLines content) errorLineIndex
          (min (errorLineIndex + 10) (splitLines content).length))
    | none => firstChars content
  else firstChars content

/-- The seven error indicator substrings of containsErrors in
log-analyzer.ts, in source order. -/
def errorIndicators : List (List Char) :=
  ["ERROR:".data, "FAILED:".data, "BUILD FAILED".data, "Exception:".data,
   "error:".data, "failed:".data, "Execution failed".data]

/-- containsErrors from log-analyzer.ts: case-sensitive substring check of
the content against every error indicator. -/
def containsErrors (content : List Char) : Bool :=
  errorIndicators.any (fun indicator => occursIn id indicator content)

/-- extractRelevantContent from log-analyzer.ts: short content is returned
verbatim; otherwise the window around the first line holding an error
indicator, or the first 10 and last 20 lines around an ellipsis marker when
no line holds one. -/
def extractRelevantContent (content : List Char) : List Char :=
  if content.length ≤ 2000 then content
  else
    match ((splitLines content).enum.filter (fun p => containsErrors p.2)) with
    | (firstErrorIndex, _) :: _ =>
      List.intercalate ['\n']
        (jsSlice (splitLines content) (firstErrorIndex - 5)
          (min (splitLines content).length (firstErrorIndex + 15)))
    | [] =>
      List.intercalate ['\n'] ((splitLines content).take 10)
        ++ "\n\n...\n\n".data
        ++ List.intercalate ['\n']
             ((splitLines content).drop ((splitLines content).length - 20))

/-- The result type of the log analyzer and the orchestrator
(LogAnalysisResult in log-analyzer.ts).  Absent optional fields are none. -/
structure LogAnalysisResult where
  success : Bool
  errorSummary : List Char
  errorDetails : List Char
  sourceFile : Option (List Char)
  relevantLogContent : Option (List Char)
deriving DecidableEq

/-- The filesystem oracle seen by the log analyzer: directory existence,
directory listing and file contents, each a total function of the path. -/
structure FS where
  existsDir : List Char → Bool
  readdir : List Char → List (List Char)
  readFile : List Char → List Char

/-- path.join of a directory and an entry name. -/
def pathJoin (a b : List Char) : List Char :=
  a ++ '/' :: b

/-- Priority-1 filename test of analyzeBazelLogs:
file.toLowerCase().includes("get errors during workflow run.txt"). -/
def isSummaryFileName (file : List Char) : Bool :=
  occursIn id ("get errors during workflow run.txt".data) (file.map Char.toLower)

/-- Priority-2 filename test of analyzeBazelLogs:
file.toLowerCase().includes("view failed test logs.txt"). -/
def isFailedTestFileName (file : List Char) : Bool :=
  occursIn id ("view failed test logs.txt".data) (file.map Char.toLower)

/-- Priority-3 filename test of analyzeBazelLogs:
file.toLowerCase().includes("build incremental.txt"). -/
def isBuildFileName (file : List Char) : Bool :=
  occursIn id ("build incremental.txt".data) (file.map Char.toLower)

/-- The result returned by analyzeBazelLogs when the Bazel logs folder does
not exist. -/
def folderNotFoundResult (bazelLogsFolderName bazelLogsPath : List Char) :
    LogAnalysisResult :=
  { success := false
    errorSummary := "Bazel logs folder not found".data
    errorDetails := "Could not find '".data ++ bazelLogsFolderName
      ++ "' folder in the extracted directory '".data ++ bazelLogsPath ++ "'".data
    sourceFile := none
    relevantLogContent := none }

/-- The result returned by analyzeBazelLogs when none of the three
recognised log files is present. -/
def noRelevantFilesResult (bazelLogsFolderName : List Char) : LogAnalysisResult :=
  { success := false
    errorSummary := "No relevant log files found".data
    errorDetails := "Could not find expected log files in '".data
      ++ bazelLogsFolderName ++ "' folder".data
    sourceFile := none
    relevantLogContent := none }

/-- Priority 3 of analyzeBazelLogs: probe for the build-log file, then fall
through to the no-relevant-files result. -/
def analyzeBuildStep (fs : FS) (bazelLogsPath bazelLogsFolderName : List Char)
    (files : List (List Char)) : LogAnalysisResult :=
  match files.find? isBuildFileName with
  | some buildFile =>
    let content := fs.readFile (pathJoin bazelLogsPath buildFile)
    if containsErrors content then
      { success := false
        errorSummary := "Build errors detected".data
        errorDetails := extractErrorDetails content
        sourceFile := some buildFile
        relevantLogContent := some (extractRelevantContent content) }
    else
      { success := true
        errorSummary := "No errors found in build log".data
        errorDetails := "Build appears successful".data
        sourceFile := some buildFile
        relevantLogContent := none }
  | none => noRelevantFilesResult bazelLogsFolderName

/-- Priority 2 of analyzeBazelLogs: probe for the failed-test file, then
fall through to priority 3. -/
def analyzeFailedTestStep (fs : FS) (bazelLogsPath bazelLogsFolderName : List Char)
    (files : List (List Char)) : LogAnalysisResult :=
  match files.find? isFailedTestFileName with
  | some failedTestFile =>
    let content := fs.readFile (pathJoin bazelLogsPath failedTestFile)
    if 0 < (jsTrim content).length then
      { success := false
        errorSummary := "Test failures detected".data
        errorDetails := extractErrorDetails content
        sourceFile := some failedTestFile
        relevantLogContent := some content }
    else analyzeBuildStep fs bazelLogsPath bazelLogsFolderName files
  | none => analyzeBuildStep fs bazelLogsPath bazelLogsFolderName files

/-- analyzeBazelLogs from log-analyzer.ts: check the Bazel logs folder
exists, then probe the three recognised log files in priority order,
falling through on a missing file and (for priorities 1 and 2) on content
that is empty after trimming. -/
def analyzeBazelLogs (fs : FS) (extractedDir bazelLogsFolderName : List Char) :
    LogAnalysisResult :=
  let bazelLogsPath := pathJoin extractedDir bazelLogsFolderName
  if fs.existsDir bazelLogsPath = false then
    folderNotFoundResult bazelLogsFolderName bazelLogsPath
  else
    let files := fs.readdir bazelLogsPath
    match files.find? isSummaryFileName with
    | some errorSummaryFile =>
      let content := fs.readFile (pathJoin bazelLogsPath errorSummaryFile)
      if 0 < (jsTrim content).length then
        { success := false
          errorSummary := "Workflow run errors found".data
          errorDetails := extractErrorDetails content
          sourceFile := some errorSummaryFile
          relevantLogContent := some content }
      else analyzeFailedTestStep fs bazelLogsPath bazelLogsFolderName files
    | none => analyzeFailedTestStep fs bazelLogsPath bazelLogsFolderName files

/-- Default of the bazelLogsFolderName field of AnalyzeBazelLogsSchema in
log-analyzer.ts. -/
def analyzeBazelLogsDefaultFolder : List Char :=
  "Bazel Build and Test".data

/-- Default of the bazelLogsFolderName field of AnalyzeWorkflowLogsSchema in
workflow-logs.ts. -/
def analyzeWorkflowLogsDefaultFolder : List Char :=
  "Bazel build and test".data

/-- The result returned by downloadAndUnzip in downloader.ts on its success
path. -/
structure DownloadResult where
  success : Bool
  message : List Char
  extractedDirectory : List Char
  files : List (List Char)
deriving DecidableEq

/-- Oracle for one execution of downloadAndUnzip: the outcome of each
effectful step of its try block (network fetch, body streaming, unzip
child process), whether a file already sits at the temporary archive path,
and the final directory listing. -/
structure DownloadEnv where
  /-- some msg when the fetch promise itself rejects with that message. -/
  fetchRejects : Option (List Char)
  /-- response.ok of the fetch response. -/
  fetchOk : Bool
  /-- response.status, used in the HTTP error message. -/
  fetchStatus : Nat
  /-- await response.text(), used in the HTTP error message. -/
  fetchBodyText : List Char
  /-- Whether response.body is null. -/
  bodyNull : Bool
  /-- some msg when streaming the body to disk rejects with that message. -/
  pipelineFails : Option (List Char)
  /-- unzipProcess.error message when spawning the unzip process failed. -/
  unzipSpawnErr : Option (List Char)
  /-- Exit status of the unzip process. -/
  unzipStatus : Int
  /-- unzipProcess.stderr.toString(). -/
  unzipStderr : List Char
  /-- Whether a file sits at the temporary archive path before the call. -/
  preTempExists : Bool
  /-- fs.readdirSync(extractDir) on the success path. -/
  listing : List (List Char)

/-- JavaScript a || b for an optional string a: the empty string and an
absent value both fall through to the default b. -/
def jsOrElse (a : Option (List Char)) (b : List Char) : List Char :=
  match a with
  | some s => if s = [] then b else s
  | none => b

/-- The try block of downloadAndUnzip.  Returns the thrown error or the
success value, paired with whether a file sits at the temporary archive
path when the block exits (the write stream is created right after the
response.ok check, so every later step sees the file on disk). -/
def downloadAndUnzipTry (env : DownloadEnv) (outputDir : List Char) :
    Except (List Char) DownloadResult × Bool :=
  match env.fetchRejects with
  | some msg => (Except.error msg, env.preTempExists)
  | none =>
    if env.fetchOk = false then
      (Except.error ("HTTP error! Status: ".data ++ (toString env.fetchStatus).data
        ++ ", Message: ".data ++ env.fetchBodyText), env.preTempExists)
    else
      if env.bodyNull then (Except.error ("Response body is null".data), true)
      else
        match env.pipelineFails with
        | some msg => (Except.error msg, true)
        | none =>
          match env.unzipSpawnErr with
          | some msg => (Except.error ("Error unzipping file: ".data ++ msg), true)
          | none =>
            if env.unzipStatus ≠ 0 then
              (Except.error ("Unzip process exited with code ".data
                ++ (toString env.unzipStatus).data ++ ": ".data ++ env.unzipStderr), true)
            else
              (Except.ok
                { success := true
                  message := "File downloaded and unzipped successfully to ".data
                    ++ outputDir
                  extractedDirectory := outputDir
                  files := env.listing }, false)

/-- downloadAndUnzip from downloader.ts: run the try block; on an error,
the catch block deletes the temporary archive file when it exists and
re-raises.  The second component is whether a file sits at the temporary
archive path when the call returns or raises. -/
def downloadAndUnzip (env : DownloadEnv) (url outputDir : List Char)
    (filename : Option (List Char)) : Except (List Char) DownloadResult × Bool :=
  let tempFilename := jsOrElse filename ("github-logs.zip".data)
  let tempFilePath := pathJoin outputDir tempFilename
  match downloadAndUnzipTry env outputDir with
  | (Except.ok r, onDisk) => (Except.ok r, onDisk)
  | (Except.error e, onDisk) => (Except.error e, if onDisk then false else onDisk)

/-- Oracle for one execution of analyzeWorkflowLogs: the timestamp used for
the analysis directory name, whether creating that directory throws, the
downloader oracle, whether the analysis stage itself throws (a low-level
read error inside the analyzer), and the filesystem the analyzer reads. -/
structure OrchEnv where
  timestamp : List Char
  mkdirFails : Option (List Char)
  dl : DownloadEnv
  analysisThrows : Option (List Char)
  fs : FS

/-- The uniform failure result of the catch-all boundary of
analyzeWorkflowLogs. -/
def orchestratorErrorResult (msg : List Char) : LogAnalysisResult :=
  { success := false
    errorSummary := "Error analyzing workflow logs".data
    errorDetails := msg
    sourceFile := none
    relevantLogContent := none }

/-- analyzeWorkflowLogs from workflow-logs.ts: create a timestamp-named
analysis directory, download and extract the archive, analyze the logs;
any error thrown at any stage is caught and converted into the uniform
failure result. -/
def analyzeWorkflowLogs (env : OrchEnv) (url outputDir bazelLogsFolderName : List Char) :
    LogAnalysisResult :=
  let analysisDir := pathJoin outputDir env.timestamp
  match env.mkdirFails with
  | some msg => orchestratorErrorResult msg
  | none =>
    match downloadAndUnzip env.dl url analysisDir none with
    | (Except.error e, _) => orchestratorErrorResult e
    | (Except.ok downloadResult, _) =>
      if downloadResult.success = false then
        { success := false
          errorSummary := "Failed to download or extract logs".data
          errorDetails := if downloadResult.message = []
            then "Unknown error occurred during download".data
            else downloadResult.message
          sourceFile := none
          relevantLogContent := none }
      else
        match env.analysisThrows with
        | some msg => orchestratorErrorResult msg
        | none =>
          analyzeBazelLogs env.fs downloadResult.extractedDirectory bazelLogsFolderName

/-- The process-wide configuration values read by the workflow API
wrappers. -/
structure EnvConfig where
  GITHUB_OWNER : Option (List Char)
  GITHUB_REPO : Option (List Char)
  GITHUB_WORKFLOW_ID : Option (List Char)

/-- JavaScript a || b on two optional strings: a wins unless it is absent
or empty. -/
def jsOr (a b : Option (List Char)) : Option (List Char) :=
  match a with
  | some s => if s = [] then b else some s
  | none => b

/-- JavaScript falsiness of an optional string: absent or empty. -/
def jsFalsy (o : Option (List Char)) : Bool :=
  match o with
  | none => true
  | some s => s.isEmpty

/-- The error message thrown by getOwnerAndRepo when no owner is available. -/
def ownerRequiredMsg : List Char :=
  "Repository owner is required. Either provide it as a parameter or set GITHUB_OWNER environment variable.".data

/-- The error message thrown by getOwnerAndRepo when no repository is
available. -/
def repoRequiredMsg : List Char :=
  "Repository name is required. Either provide it as a parameter or set GITHUB_REPO environment variable.".data

/-- The error message thrown by listWorkflowRunsByWorkflowId when no
workflow id is available. -/
def workflowIdRequiredMsg : List Char :=
  "Workflow ID is required. Either provide it as a parameter or set GITHUB_WORKFLOW_ID environment variable.".data

/-- getOwnerAndRepo from workflows.ts (the copy in ci_workflows.ts is
identical): each parameter falls back to its environment value, and a
missing or empty result throws a descriptive error. -/
def getOwnerAndRepo (cfg : EnvConfig) (providedOwner providedRepo : Option (List Char)) :
    Except (List Char) (List Char × List Char) :=
  let owner := jsOr providedOwner cfg.GITHUB_OWNER
  let repo := jsOr providedRepo cfg.GITHUB_REPO
  if jsFalsy owner then Except.error ownerRequiredMsg
  else if jsFalsy repo then Except.error repoRequiredMsg
  else Except.ok (owner.getD [], repo.getD [])

/-- URL of the workflow-runs listing request of listWorkflowRuns (query
parameters omitted: no claim concerns them). -/
def runsUrl (owner repo : List Char) : List Char :=
  "https://api.github.com/repos/".data ++ owner ++ "/".data ++ repo
    ++ "/actions/runs".data

/-- URL of the single-run request of getWorkflowRun. -/
def runUrl (owner repo : List Char) (runId : Nat) : List Char :=
  "https://api.github.com/repos/".data ++ owner ++ "/".data ++ repo
    ++ "/actions/runs/".data ++ (toString runId).data

/-- URL of the per-workflow runs listing request of
listWorkflowRunsByWorkflowId. -/
def workflowRunsUrl (owner repo workflowId : List Char) : List Char :=
  "https://api.github.com/repos/".data ++ owner ++ "/".data ++ repo
    ++ "/actions/workflows/".data ++ workflowId ++ "/runs".data

/-- URL of the logs request of getWorkflowRunLogs. -/
def runLogsUrl (owner repo : List Char) (runId : Nat) : List Char :=
  "https://api.github.com/repos/".data ++ owner ++ "/".data ++ repo
    ++ "/actions/runs/".data ++ (toString runId).data ++ "/logs".data

/-- The parameter-resolution phase of listWorkflowRuns in workflows.ts: the
value is the URL of the network request the operation then issues; an
error is thrown before any network call. -/
def listWorkflowRuns (cfg : EnvConfig) (owner repo : Option (List Char)) :
    Except (List Char) (List Char) :=
  (getOwnerAndRepo cfg owner repo).map (fun p => runsUrl p.1 p.2)

/-- The parameter-resolution phase of getWorkflowRun in workflows.ts. -/
def getWorkflowRun (cfg : EnvConfig) (owner repo : Option (List Char)) (runId : Nat) :
    Except (List Char) (List Char) :=
  (getOwnerAndRepo cfg owner repo).map (fun p => runUrl p.1 p.2 runId)

/-- The parameter-resolution phase of listWorkflowRunsByWorkflowId in
workflows.ts: owner and repo resolve through getOwnerAndRepo, then the
workflow id falls back to GITHUB_WORKFLOW_ID with its own error. -/
def listWorkflowRunsByWorkflowId (cfg : EnvConfig)
    (owner repo workflowId : Option (List Char)) : Except (List Char) (List Char) :=
  match getOwnerAndRepo cfg owner repo with
  | Except.error e => Except.error e
  | Except.ok (o, r) =>
    let workflow_id := jsOr workflowId cfg.GITHUB_WORKFLOW_ID
    if jsFalsy workflow_id then Except.error workflowIdRequiredMsg
    else Except.ok (workflowRunsUrl o r (workflow_id.getD []))

/-- The parameter-resolution phase of getWorkflowRunLogs in workflows.ts. -/
def getWorkflowRunLogs (cfg : EnvConfig) (owner repo : Option (List Char)) (runId : Nat) :
    Except (List Char) (List Char) :=
  (getOwnerAndRepo cfg owner repo).map (fun p => runLogsUrl p.1 p.2 runId)

/-- listCiWorkflowRuns from ci_workflows.ts: the destructuring keeps only
the query options, so the owner and repo parameters and the environment
are ignored and the request always targets the hardcoded askscio/scio
repository; no error is ever thrown. -/
def listCiWorkflowRuns (cfg : EnvConfig) (owner repo : Option (List Char)) :
    Except (List Char) (List Char) :=
  Except.ok ("https://api.github.com/repos/askscio/scio/actions/runs".data)

/-- getCiWorkflowRun from ci_workflows.ts: only run_id is used, against the
hardcoded askscio/scio repository. -/
def getCiWorkflowRun (cfg : EnvConfig) (owner repo : Option (List Char)) (runId : Nat) :
    Except (List Char) (List Char) :=
  Except.ok ("https://api.github.com/repos/askscio/scio/actions/runs/".data
    ++ (toString runId).data)

/-- listCiWorkflowRunsForBranch from ci_workflows.ts: owner, repo and
workflow id parameters are all ignored in favour of the hardcoded
askscio/scio repository and bazel_pr_runner.yml workflow. -/
def listCiWorkflowRunsForBranch (cfg : EnvConfig)
    (owner repo workflowId : Option (List Char)) : Except (List Char) (List Char) :=
  Except.ok
    ("https://api.github.com/repos/askscio/scio/actions/workflows/bazel_pr_runner.yml/runs".data)

/-- getCiWorkflowRunLogs from ci_workflows.ts: only run_id is used, against
the hardcoded askscio/scio repository. -/
def getCiWorkflowRunLogs (cfg : EnvConfig) (owner repo : Option (List Char)) (runId : Nat) :
    Except (List Char) (List Char) :=
  Except.ok ("https://api.github.com/repos/askscio/scio/actions/runs/".data
    ++ (toString runId).data ++ "/logs".data)

/-! ### Helper lemmas about the string machinery -/

theorem splitLines_ne_nil (s : List Char) : splitLines s ≠ [] := by
  induction s with
  | nil => simp [splitLines]
  | cons c cs ih =>
    simp only [splitLines]
    split
    · exact List.cons_ne_nil _ _
    · split
      · exact List.cons_ne_nil _ _
      · exact List.cons_ne_nil _ _

theorem matchesAt_occursIn (norm : Char → Char) (p l : List Char)
    (h : matchesAt norm p l = true) : occursIn norm p l = true := by
  cases l with
  | nil => simpa [occursIn] using h
  | cons c s => simp [occursIn, h]

theorem matchesAt_splitLines_head (norm : Char → Char) (hnl : norm '\n' = '\n') :
    ∀ (p s : List Char), (∀ a ∈ p, norm a ≠ '\n') → matchesAt norm p s = true →
      ∃ l ls, splitLines s = l :: ls ∧ matchesAt norm p l = true := by
  intro p
  induction p with
  | nil =>
    intro s _ _
    cases h : splitLines s with
    | nil => exact absurd h (splitLines_ne_nil s)
    | cons l ls => exact ⟨l, ls, rfl, rfl⟩
  | cons a p ih =>
    intro s hno hm
    cases s with
    | nil => simp [matchesAt] at hm
    | cons c cs =>
      simp only [matchesAt, Bool.and_eq_true, beq_iff_eq] at hm
      obtain ⟨hac, hrest⟩ := hm
      have hcn : ¬ c = '\n' := by
        intro hc
        exact hno a (List.mem_cons_self a p) (by rw [hac, hc, hnl])
      obtain ⟨l, ls, hsl, hml⟩ :=
        ih cs (fun x hx => hno x (List.mem_cons_of_mem _ hx)) hrest
      refine ⟨c :: l, ls, ?_, ?_⟩
      · simp only [splitLines]
        rw [if_neg hcn, hsl]
      · simp [matchesAt, hac, hml]

theorem occursIn_splitLines (norm : Char → Char) (hnl : norm '\n' = '\n')
    (p : List Char) (hno : ∀ a ∈ p, norm a ≠ '\n') :
    ∀ s : List Char, occursIn norm p s = true →
      ∃ l ∈ splitLines s, occursIn norm p l = true := by
  intro s
  induction s with
  | nil =>
    intro h
    simp only [occursIn] at h
    obtain ⟨l, ls, hsl, hml⟩ := matchesAt_splitLines_head norm hnl p [] hno h
    exact ⟨l, by rw [hsl]; exact List.mem_cons_self l ls, matchesAt_occursIn norm p l hml⟩
  | cons c cs ih =>
    intro h
    simp only [occursIn, Bool.or_eq_true] at h
    cases h with
    | inl hm =>
      obtain ⟨l, ls, hsl, hml⟩ := matchesAt_splitLines_head norm hnl p (c :: cs) hno hm
      exact ⟨l, by rw [hsl]; exact List.mem_cons_self l ls, matchesAt_occursIn norm p l hml⟩
    | inr ho =>
      obtain ⟨l, hl, hol⟩ := ih ho
      by_cases hc : c = '\n'
      · subst hc
        refine ⟨l, ?_, hol⟩
        simp only [splitLines, if_pos rfl]
        exact List.mem_cons_of_mem _ hl
      · cases hsl : splitLines cs with
        | nil => exact absurd hsl (splitLines_ne_nil cs)
        | cons l0 ls =>
          have hs2 : splitLines (c :: cs) = (c :: l0) :: ls := by
            simp only [splitLines]
            rw [if_neg hc, hsl]
          rw [hsl] at hl
          cases List.mem_cons.mp hl with
          | inl heq =>
            subst heq
            refine ⟨c :: l, by rw [hs2]; exact List.mem_cons_self _ _, ?_⟩
            simp [occursIn, hol]
          | inr hmem =>
            exact ⟨l, by rw [hs2]; exact List.mem_cons_of_mem _ hmem, hol⟩

theorem matchesErrorPattern_line (content : List Char)
    (h : matchesErrorPattern content = true) :
    ∃ l ∈ splitLines content, matchesErrorPattern l = true := by
  have hp : ∀ p ∈ errorPatternAlts, ∀ a ∈ p, Char.toLower a ≠ '\n' := by decide
  rw [matchesErrorPattern, List.any_eq_true] at h
  obtain ⟨p, hpmem, hocc⟩ := h
  obtain ⟨l, hl, holl⟩ :=
    occursIn_splitLines Char.toLower (by decide) p (hp p hpmem) content hocc
  refine ⟨l, hl, ?_⟩
  rw [matchesErrorPattern, List.any_eq_true]
  exact ⟨p, hpmem, holl⟩

theorem firstIdx_isSome_of_mem (pred : α → Bool) :
    ∀ (l : List α) (x : α), x ∈ l → pred x = true → ∃ i, firstIdx pred l = some i := by
  intro l
  induction l with
  | nil => intro x hx _; exact absurd hx (List.not_mem_nil x)
  | cons a t ih =>
    intro x hx hpx
    by_cases ha : pred a = true
    · exact ⟨0, by simp [firstIdx, ha]⟩
    · cases List.mem_cons.mp hx with
      | inl he => exact absurd (he ▸ hpx) ha
      | inr hm =>
        obtain ⟨i, hi⟩ := ih x hm hpx
        exact ⟨i + 1, by simp [firstIdx, ha, hi]⟩

theorem head_filter_enumFrom (pred : α → Bool) :
    ∀ (l : List α) (n : Nat),
      (((List.enumFrom n l).filter (fun p => pred p.2)).head?).map Prod.fst
        = (firstIdx pred l).map (· + n) := by
  intro l
  induction l with
  | nil => intro n; simp [firstIdx, List.enumFrom]
  | cons a t ih =>
    intro n
    by_cases ha : pred a = true
    · simp [List.enumFrom, List.filter_cons, ha, firstIdx]
    · simp only [List.enumFrom, List.filter_cons, ha, if_false, Bool.false_eq_true]
      rw [ih (n + 1)]
      simp only [firstIdx, ha, if_false, Bool.false_eq_true]
      cases ho : firstIdx pred t with
      | none => simp
      | some i => simp; omega

theorem mem_of_mem_enumFrom {α : Type _} :
    ∀ (l : List α) (n : Nat) (p : Nat × α), p ∈ List.enumFrom n l → p.2 ∈ l := by
  intro l
  induction l with
  | nil => intro n p hp; simp [List.enumFrom] at hp
  | cons a t ih =>
    intro n p hp
    simp only [List.enumFrom] at hp
    cases List.mem_cons.mp hp with
    | inl he => subst he; exact List.mem_cons_self a t
    | inr hm => exact List.mem_cons_of_mem _ (ih (n + 1) p hm)

theorem splitLines_no_newline (s : List Char) (h : ∀ c ∈ s, c ≠ '\n') :
    splitLines s = [s] := by
  induction s with
  | nil => rfl
  | cons c cs ih =>
    simp only [splitLines]
    rw [if_neg (h c (List.mem_cons_self c cs)),
      ih (fun x hx => h x (List.mem_cons_of_mem _ hx))]

theorem occursIn_eq_false (norm : Char → Char) (a : Char) (p s : List Char)
    (h : ∀ c ∈ s, norm c ≠ norm a) : occursIn norm (a :: p) s = false := by
  induction s with
  | nil => rfl
  | cons c cs ih =>
    simp only [occursIn, matchesAt, Bool.or_eq_false_iff, Bool.and_eq_false_iff]
    constructor
    · left
      simp [beq_eq_false_iff_ne]
      exact fun he => (h c (List.mem_cons_self c cs)) he.symm
    · exact ih (fun x hx => h x (List.mem_cons_of_mem _ hx))

theorem containsErrors_allA (n : Nat) :
    containsErrors (List.replicate n 'a') = false := by
  have hch : ∀ c ∈ List.replicate n 'a', id c ≠ id 'E' := by
    intro c hc
    rw [List.eq_of_mem_replicate hc]
    decide
  have hch2 : ∀ c ∈ List.replicate n 'a', id c ≠ id 'F' := by
    intro c hc; rw [List.eq_of_mem_replicate hc]; decide
  have hch3 : ∀ c ∈ List.replicate n 'a', id c ≠ id 'B' := by
    intro c hc; rw [List.eq_of_mem_replicate hc]; decide
  have hch4 : ∀ c ∈ List.replicate n 'a', id c ≠ id 'e' := by
    intro c hc; rw [List.eq_of_mem_replicate hc]; decide
  have hch5 : ∀ c ∈ List.replicate n 'a', id c ≠ id 'f' := by
    intro c hc; rw [List.eq_of_mem_replicate hc]; decide
  simp only [containsErrors, errorIndicators, List.any_cons, List.any_nil,
    Bool.or_eq_false_iff]
  refine ⟨?_, ?_, ?_, ?_, ?_, ?_, ?_, trivial⟩
  · exact occursIn_eq_false id 'E' _ _ hch
  · exact occursIn_eq_false id 'F' _ _ hch2
  · exact occursIn_eq_false id 'B' _ _ hch3
  · exact occursIn_eq_false id 'E' _ _ hch
  · exact occursIn_eq_false id 'e' _ _ hch4
  · exact occursIn_eq_false id 'f' _ _ hch5
  · exact occursIn_eq_false id 'E' _ _ hch

theorem take_min_window (l : List α) (i : Nat) :
    (l.drop i).take (min (i + 10) l.length - i) = (l.drop i).take 10 := by
  rcases Nat.le_total (i + 10) l.length with h | h
  · rw [Nat.min_eq_left h]
    congr 1
    omega
  · rw [Nat.min_eq_right h]
    rcases Nat.le_total l.length i with h2 | h2
    · rw [List.drop_eq_nil_of_le h2]
      simp
    · rw [List.take_of_length_le, List.take_of_length_le] <;>
        simp [List.length_drop] <;> omega

/-! ### Claim theorems for the two excerpt extractors -/

/-- Claim C3: whenever the case-insensitive error pattern matches somewhere
in the text, extractErrorDetails returns the first pattern-matching line
plus the following 9 lines (up to 10 lines total, fewer when the text runs
out), joined with newlines; when the pattern matches nowhere, it returns
the first 500 characters, with an ellipsis appended exactly when the text
is longer than 500 characters. -/
theorem extractErrorDetails_spec (content : List Char) :
    (matchesErrorPattern content = true →
      ∃ idx, firstIdx (fun line => matchesErrorPattern line) (splitLines content) = some idx ∧
        extractErrorDetails content
          = List.intercalate ['\n'] (((splitLines content).drop idx).take 10)) ∧
    (matchesErrorPattern content = false →
      extractErrorDetails content
        = content.take 500 ++ (if 500 < content.length then "...".data else [])) := by
  constructor
  · intro h
    obtain ⟨l, hl, hml⟩ := matchesErrorPattern_line content h
    obtain ⟨idx, hidx⟩ :=
      firstIdx_isSome_of_mem (fun line => matchesErrorPattern line) (splitLines content) l hl hml
    refine ⟨idx, hidx, ?_⟩
    simp only [extractErrorDetails, if_pos h, hidx, jsSlice]
    rw [take_min_window]
  · intro h
    simp only [extractErrorDetails, h, Bool.false_eq_true, if_false, firstChars]

/-- Concrete input for claim C3 where the error pattern matches. -/
def c3ErrSample : List Char := "junk\nERROR: disk full\nline1\nline2".data

/-- Concrete input for claim C3 where the error pattern does not match. -/
def c3CleanSample : List Char := "all good here".data

/-- Witness for claim C3, instantiating both branches at concrete inputs. -/
theorem extractErrorDetails_spec_witness :
    (matchesErrorPattern c3ErrSample = true ∧
      ∃ idx, firstIdx (fun line => matchesErrorPattern line) (splitLines c3ErrSample) = some idx ∧
        extractErrorDetails c3ErrSample
          = List.intercalate ['\n'] (((splitLines c3ErrSample).drop idx).take 10)) ∧
    (matchesErrorPattern c3CleanSample = false ∧
      extractErrorDetails c3CleanSample
        = c3CleanSample.take 500
          ++ (if 500 < c3CleanSample.length then "...".data else [])) :=
  ⟨⟨by decide, (extractErrorDetails_spec c3ErrSample).1 (by decide)⟩,
   ⟨by decide, (extractErrorDetails_spec c3CleanSample).2 (by decide)⟩⟩

/-- Claim C4: extractRelevantContent returns text of at most 2000
characters verbatim; for longer text whose first error-indicator line has
index i it returns the window of lines from 5 before i to 15 after i,
clamped to the bounds; and for longer text with no indicator line it
returns the first 10 lines and the last 20 lines joined around an ellipsis
marker. -/
theorem extractRelevantContent_spec (content : List Char) :
    (content.length ≤ 2000 → extractRelevantContent content = content) ∧
    (2000 < content.length →
      ∀ i, firstIdx containsErrors (splitLines content) = some i →
        extractRelevantContent content
          = List.intercalate ['\n']
              (jsSlice (splitLines content) (i - 5)
                (min (splitLines content).length (i + 15)))) ∧
    (2000 < content.length →
      (∀ line ∈ splitLines content, containsErrors line = false) →
      extractRelevantContent content
        = List.intercalate ['\n'] ((splitLines content).take 10)
          ++ "\n\n...\n\n".data
          ++ List.intercalate ['\n']
               ((splitLines content).drop ((splitLines content).length - 20))) := by
  refine ⟨?_, ?_, ?_⟩
  · intro h
    simp only [extractRelevantContent, if_pos h]
  · intro h2000 i hi
    have hhead := head_filter_enumFrom containsErrors (splitLines content) 0
    rw [hi] at hhead
    cases hE : ((splitLines content).enum.filter (fun p => containsErrors p.2)) with
    | nil =>
      rw [show (splitLines content).enum = List.enumFrom 0 (splitLines content) from rfl] at hE
      rw [hE] at hhead
      simp at hhead
    | cons q rest =>
      obtain ⟨j, x⟩ := q
      have hj : j = i := by
        rw [show (splitLines content).enum = List.enumFrom 0 (splitLines content) from rfl] at hE
        rw [hE] at hhead
        simp at hhead
        omega
      subst hj
      simp only [extractRelevantContent]
      rw [if_neg (by omega), hE]
  · intro h2000 hall
    have hfil : ((splitLines content).enum.filter (fun p => containsErrors p.2)) = [] := by
      rw [List.filter_eq_nil]
      intro p hp
      have hmem := mem_of_mem_enumFrom (splitLines content) 0 p hp
      simp [hall p.2 hmem]
    simp only [extractRelevantContent]
    rw [if_neg (by omega), hfil]

/-- Concrete short input for claim C4. -/
def c4ShortSample : List Char := "short build log".data

/-- Concrete long input for claim C4 whose single line holds an error
indicator. -/
def c4ErrSample : List Char := "ERROR: boom".data ++ List.replicate 2000 'a'

/-- Concrete long input for claim C4 with no error indicator anywhere. -/
def c4PlainSample : List Char := List.replicate 2001 'a'

theorem c4ErrSample_no_newline : ∀ c ∈ c4ErrSample, c ≠ '\n' := by
  have hlit : ∀ c ∈ ("ERROR: boom".data), c ≠ '\n' := by decide
  intro c hc
  rcases List.mem_append.mp hc with h | h
  · exact hlit c h
  · rw [List.eq_of_mem_replicate h]; decide

theorem c4ErrSample_contains : containsErrors c4ErrSample = true := by
  have hm : matchesAt id ("ERROR:".data) c4ErrSample = true := rfl
  have hocc : occursIn id ("ERROR:".data) c4ErrSample = true :=
    matchesAt_occursIn id _ c4ErrSample hm
  simp [containsErrors, errorIndicators, List.any_cons, hocc]

/-- Witness for claim C4, instantiating all three branches at concrete
inputs. -/
theorem extractRelevantContent_spec_witness :
    (c4ShortSample.length ≤ 2000 ∧ extractRelevantContent c4ShortSample = c4ShortSample) ∧
    (2000 < c4ErrSample.length ∧
      firstIdx containsErrors (splitLines c4ErrSample) = some 0 ∧
      extractRelevantContent c4ErrSample
        = List.intercalate ['\n']
            (jsSlice (splitLines c4ErrSample) (0 - 5)
              (min (splitLines c4ErrSample).length (0 + 15)))) ∧
    (2000 < c4PlainSample.length ∧
      (∀ line ∈ splitLines c4PlainSample, containsErrors line = false) ∧
      extractRelevantContent c4PlainSample
        = List.intercalate ['\n'] ((splitLines c4PlainSample).take 10)
          ++ "\n\n...\n\n".data
          ++ List.intercalate ['\n']
               ((splitLines c4PlainSample).drop ((splitLines c4PlainSample).length - 20))) := by
  have hlen1 : c4ErrSample.length = 2011 := by
    have hl : ("ERROR: boom".data).length = 11 := rfl
    rw [c4ErrSample, List.length_append, hl, List.length_replicate]
  have hsplit1 : splitLines c4ErrSample = [c4ErrSample] :=
    splitLines_no_newline _ c4ErrSample_no_newline
  have hfi : firstIdx containsErrors (splitLines c4ErrSample) = some 0 := by
    rw [hsplit1]
    simp [firstIdx, c4ErrSample_contains]
  have hlen2 : c4PlainSample.length = 2001 := by
    rw [c4PlainSample, List.length_replicate]
  have hsplit2 : splitLines c4PlainSample = [c4PlainSample] := by
    refine splitLines_no_newline _ ?_
    intro c hc
    rw [List.eq_of_mem_replicate hc]
    decide
  have hall : ∀ line ∈ splitLines c4PlainSample, containsErrors line = false := by
    rw [hsplit2]
    intro line hline
    rw [List.eq_of_mem_singleton hline]
    exact containsErrors_allA 2001
  exact ⟨⟨by decide, (extractRelevantContent_spec c4ShortSample).1 (by decide)⟩,
    ⟨by omega, hfi,
      (extractRelevantContent_spec c4ErrSample).2.1 (by omega) 0 hfi⟩,
    ⟨by omega, hall,
      (extractRelevantContent_spec c4PlainSample).2.2 (by omega) hall⟩⟩



/-- Claim C1: when the Bazel logs folder exists and the summary file is
found, non-empty-after-trim summary content makes the result's sourceFile
the summary file's name even when a non-empty failed-test file is also
present; and summary content empty after trimming does not short-circuit:
the analyzer's result is exactly the result of the failed-test step. -/
theorem analyzeBazelLogs_priorityOrder (fs : FS) (extractedDir bazelLogsFolderName : List Char)
    (hex : fs.existsDir (pathJoin extractedDir bazelLogsFolderName) = true) :
    ∀ sf, (fs.readdir (pathJoin extractedDir bazelLogsFolderName)).find? isSummaryFileName
        = some sf →
      ((0 < (jsTrim (fs.readFile
            (pathJoin (pathJoin extractedDir bazelLogsFolderName) sf))).length →
        ∀ tf, (fs.readdir (pathJoin extractedDir bazelLogsFolderName)).find? isFailedTestFileName
            = some tf →
          0 < (fs.readFile (pathJoin (pathJoin extractedDir bazelLogsFolderName) tf)).length →
          (analyzeBazelLogs fs extractedDir bazelLogsFolderName).sourceFile = some sf) ∧
       (jsTrim (fs.readFile (pathJoin (pathJoin extractedDir bazelLogsFolderName) sf)) = [] →
        analyzeBazelLogs fs extractedDir bazelLogsFolderName
          = analyzeFailedTestStep fs (pathJoin extractedDir bazelLogsFolderName)
              bazelLogsFolderName (fs.readdir (pathJoin extractedDir bazelLogsFolderName)))) := by
  intro sf hsf
  constructor
  · intro htrim tf htf hne
    simp [analyzeBazelLogs, hex, hsf, htrim]
  · intro htrim0
    simp [analyzeBazelLogs, hex, hsf, htrim0]



/-- Claim C2: with no summary-file match and no failed-test-file match but
a build-log file found, content holding one of the seven case-sensitive
error indicators yields the failure result with errorSummary
"Build errors detected" and relevantLogContent from the relevant-content
extractor; content holding none yields the success result with
errorSummary "No errors found in build log". -/
theorem analyzeBazelLogs_buildLog (fs : FS) (extractedDir bazelLogsFolderName : List Char)
    (hex : fs.existsDir (pathJoin extractedDir bazelLogsFolderName) = true)
    (hs : (fs.readdir (pathJoin extractedDir bazelLogsFolderName)).find? isSummaryFileName = none)
    (ht : (fs.readdir (pathJoin extractedDir bazelLogsFolderName)).find? isFailedTestFileName = none) :
    ∀ bf, (fs.readdir (pathJoin extractedDir bazelLogsFolderName)).find? isBuildFileName = some bf →
      ((containsErrors (fs.readFile (pathJoin (pathJoin extractedDir bazelLogsFolderName) bf)) = true →
        analyzeBazelLogs fs extractedDir bazelLogsFolderName
          = { success := false
              errorSummary := "Build errors detected".data
              errorDetails := extractErrorDetails
                (fs.readFile (pathJoin (pathJoin extractedDir bazelLogsFolderName) bf))
              sourceFile := some bf
              relevantLogContent := some (extractRelevantContent
                (fs.readFile (pathJoin (pathJoin extractedDir bazelLogsFolderName) bf))) }) ∧
       (containsErrors (fs.readFile (pathJoin (pathJoin extractedDir bazelLogsFolderName) bf)) = false →
        analyzeBazelLogs fs extractedDir bazelLogsFolderName
          = { success := true
              errorSummary := "No errors found in build log".data
              errorDetails := "Build appears successful".data
              sourceFile := some bf
              relevantLogContent := none })) := by
  intro bf hbf
  constructor
  · intro hce
    simp [analyzeBazelLogs, analyzeFailedTestStep, analyzeBuildStep, hex, hs, ht, hbf, hce]
  · intro hce
    simp [analyzeBazelLogs, analyzeFailedTestStep, analyzeBuildStep, hex, hs, ht, hbf, hce]

/-- Claim C5: a missing Bazel logs folder is reported as a returned
failure result with errorSummary "Bazel logs folder not found", and the
result does not depend on the folder contents (no file scanning); an
existing folder holding none of the three recognised files yields the
failure result with errorSummary "No relevant log files found". -/
theorem analyzeBazelLogs_absentInputs (fs : FS) (extractedDir bazelLogsFolderName : List Char) :
    (fs.existsDir (pathJoin extractedDir bazelLogsFolderName) = false →
      ((analyzeBazelLogs fs extractedDir bazelLogsFolderName).success = false ∧
       (analyzeBazelLogs fs extractedDir bazelLogsFolderName).errorSummary
          = "Bazel logs folder not found".data) ∧
      ∀ g : FS, g.existsDir = fs.existsDir →
        analyzeBazelLogs g extractedDir bazelLogsFolderName
          = analyzeBazelLogs fs extractedDir bazelLogsFolderName) ∧
    (fs.existsDir (pathJoin extractedDir bazelLogsFolderName) = true →
      (∀ f ∈ fs.readdir (pathJoin extractedDir bazelLogsFolderName),
        isSummaryFileName f = false ∧ isFailedTestFileName f = false ∧ isBuildFileName f = false) →
      (analyzeBazelLogs fs extractedDir bazelLogsFolderName).success = false ∧
      (analyzeBazelLogs fs extractedDir bazelLogsFolderName).errorSummary
        = "No relevant log files found".data) := by
  constructor
  · intro hex
    constructor
    · simp [analyzeBazelLogs, hex, folderNotFoundResult]
    · intro g hg
      simp [analyzeBazelLogs, hex, hg]
  · intro hex hall
    have hs : (fs.readdir (pathJoin extractedDir bazelLogsFolderName)).find? isSummaryFileName = none :=
      List.find?_eq_none.mpr (fun x hx => by simp [(hall x hx).1])
    have ht : (fs.readdir (pathJoin extractedDir bazelLogsFolderName)).find? isFailedTestFileName = none :=
      List.find?_eq_none.mpr (fun x hx => by simp [(hall x hx).2.1])
    have hb : (fs.readdir (pathJoin extractedDir bazelLogsFolderName)).find? isBuildFileName = none :=
      List.find?_eq_none.mpr (fun x hx => by simp [(hall x hx).2.2])
    simp [analyzeBazelLogs, analyzeFailedTestStep, analyzeBuildStep, hex, hs, ht, hb,
      noRelevantFilesResult]



/-- Concrete filesystem for claim C1 with a non-empty summary file and a
non-empty failed-test file. -/
def c1Fs : FS :=
  { existsDir := fun p => decide (p = pathJoin "/x".data "Bazel Build and Test".data)
    readdir := fun _ =>
      ["Get errors during workflow run.txt".data, "View Failed Test Logs.txt".data]
    readFile := fun p =>
      if p = pathJoin (pathJoin "/x".data "Bazel Build and Test".data)
          ("Get errors during workflow run.txt".data)
      then "ERROR: boom".data else "failed: t".data }

/-- Concrete filesystem for claim C1 whose summary file is whitespace
only. -/
def c1FsEmpty : FS :=
  { existsDir := fun p => decide (p = pathJoin "/x".data "Bazel Build and Test".data)
    readdir := fun _ =>
      ["Get errors during workflow run.txt".data, "View Failed Test Logs.txt".data]
    readFile := fun p =>
      if p = pathJoin (pathJoin "/x".data "Bazel Build and Test".data)
          ("Get errors during workflow run.txt".data)
      then "  ".data else "failed: t".data }

/-- Witness for claim C1 at the two concrete filesystems. -/
theorem analyzeBazelLogs_priorityOrder_witness :
    ((analyzeBazelLogs c1Fs "/x".data "Bazel Build and Test".data).sourceFile
        = some "Get errors during workflow run.txt".data) ∧
    (analyzeBazelLogs c1FsEmpty "/x".data "Bazel Build and Test".data
        = analyzeFailedTestStep c1FsEmpty
            (pathJoin "/x".data "Bazel Build and Test".data)
            ("Bazel Build and Test".data)
            (c1FsEmpty.readdir (pathJoin "/x".data "Bazel Build and Test".data))) :=
  ⟨(analyzeBazelLogs_priorityOrder c1Fs "/x".data ("Bazel Build and Test".data) (by decide)
      ("Get errors during workflow run.txt".data) (by decide)).1 (by decide)
      ("View Failed Test Logs.txt".data) (by decide) (by decide),
   (analyzeBazelLogs_priorityOrder c1FsEmpty "/x".data ("Bazel Build and Test".data) (by decide)
      ("Get errors during workflow run.txt".data) (by decide)).2 (by decide)⟩

/-- Concrete filesystem for claim C2 whose build log holds an error
indicator. -/
def c2FsErr : FS :=
  { existsDir := fun _ => true
    readdir := fun _ => ["Build Incremental.txt".data]
    readFile := fun _ => "Compiling\nBUILD FAILED: target".data }

/-- Concrete filesystem for claim C2 whose build log is clean. -/
def c2FsOk : FS :=
  { existsDir := fun _ => true
    readdir := fun _ => ["Build Incremental.txt".data]
    readFile := fun _ => "all fine".data }

/-- Witness for claim C2 at the two concrete filesystems. -/
theorem analyzeBazelLogs_buildLog_witness :
    (analyzeBazelLogs c2FsErr "/x".data "Bazel Build and Test".data
      = { success := false
          errorSummary := "Build errors detected".data
          errorDetails := extractErrorDetails "Compiling\nBUILD FAILED: target".data
          sourceFile := some "Build Incremental.txt".data
          relevantLogContent :=
            some (extractRelevantContent "Compiling\nBUILD FAILED: target".data) }) ∧
    (analyzeBazelLogs c2FsOk "/x".data "Bazel Build and Test".data
      = { success := true
          errorSummary := "No errors found in build log".data
          errorDetails := "Build appears successful".data
          sourceFile := some "Build Incremental.txt".data
          relevantLogContent := none }) :=
  ⟨(analyzeBazelLogs_buildLog c2FsErr "/x".data ("Bazel Build and Test".data)
      (by decide) (by decide) (by decide) ("Build Incremental.txt".data) (by decide)).1 (by decide),
   (analyzeBazelLogs_buildLog c2FsOk "/x".data ("Bazel Build and Test".data)
      (by decide) (by decide) (by decide) ("Build Incremental.txt".data) (by decide)).2 (by decide)⟩

/-- Concrete filesystem for claim C5 with no Bazel logs folder. -/
def c5FsMissing : FS :=
  { existsDir := fun _ => false
    readdir := fun _ => []
    readFile := fun _ => [] }

/-- Concrete filesystem for claim C5 whose folder holds no recognised
file. -/
def c5FsEmptyDir : FS :=
  { existsDir := fun _ => true
    readdir := fun _ => ["readme.md".data]
    readFile := fun _ => [] }

/-- Witness for claim C5 at the two concrete filesystems. -/
theorem analyzeBazelLogs_absentInputs_witness :
    ((analyzeBazelLogs c5FsMissing "/x".data "Bazel Build and Test".data).success = false ∧
     (analyzeBazelLogs c5FsMissing "/x".data "Bazel Build and Test".data).errorSummary
        = "Bazel logs folder not found".data) ∧
    ((analyzeBazelLogs c5FsEmptyDir "/x".data "Bazel Build and Test".data).success = false ∧
     (analyzeBazelLogs c5FsEmptyDir "/x".data "Bazel Build and Test".data).errorSummary
        = "No relevant log files found".data) :=
  ⟨((analyzeBazelLogs_absentInputs c5FsMissing "/x".data
      ("Bazel Build and Test".data)).1 (by decide)).1,
   (analyzeBazelLogs_absentInputs c5FsEmptyDir "/x".data
      ("Bazel Build and Test".data)).2 (by decide) (by decide)⟩



/-- The try block of downloadAndUnzip returns Except.ok only at its single
success site, whose result has success = true and whose temp file was
already deleted. -/
theorem downloadAndUnzipTry_ok (env : DownloadEnv) (outputDir : List Char)
    (r : DownloadResult) (b : Bool)
    (h : downloadAndUnzipTry env outputDir = (Except.ok r, b)) :
    r.success = true ∧ b = false := by
  unfold downloadAndUnzipTry at h
  repeat' split at h
  all_goals simp at h
  obtain ⟨hr, hb⟩ := h
  constructor
  · rw [← hr]
  · rw [← hb]

/-- On every path of downloadAndUnzip, success or raise, no file remains at
the temporary archive path. -/
theorem downloadAndUnzip_tempGone (env : DownloadEnv) (url outputDir : List Char)
    (filename : Option (List Char)) :
    (downloadAndUnzip env url outputDir filename).2 = false := by
  unfold downloadAndUnzip
  rcases hT : downloadAndUnzipTry env outputDir with ⟨res, b⟩
  rcases res with e | r
  · cases b <;> simp
  · simpa using (downloadAndUnzipTry_ok env outputDir r b hT).2

/-- Every non-raising call of downloadAndUnzip returns success = true. -/
theorem downloadAndUnzip_ok_success (env : DownloadEnv) (url outputDir : List Char)
    (filename : Option (List Char)) (r : DownloadResult) (b : Bool)
    (h : downloadAndUnzip env url outputDir filename = (Except.ok r, b)) :
    r.success = true := by
  unfold downloadAndUnzip at h
  rcases hT : downloadAndUnzipTry env outputDir with ⟨res, b2⟩
  rw [hT] at h
  rcases res with e | r2
  · simp at h
  · have hs := (downloadAndUnzipTry_ok env outputDir r2 b2 hT).1
    simp only [Prod.mk.injEq, Except.ok.injEq] at h
    simp_all

/-- No branch of the log analyzer produces the orchestrator-only summary
"Failed to download or extract logs". -/
theorem analyzeBazelLogs_summary_ne (fs : FS) (d f : List Char) :
    (analyzeBazelLogs fs d f).errorSummary ≠ "Failed to download or extract logs".data := by
  simp only [analyzeBazelLogs, analyzeFailedTestStep, analyzeBuildStep,
    folderNotFoundResult, noRelevantFilesResult]
  repeat' split
  all_goals simp



/-- Claim C6: in every execution of downloadAndUnzip in which the
temporary archive file has begun being written (the fetch resolved with an
ok response, so the write stream was created), no file remains at the
temporary archive path afterwards, whether the call returns or raises: the
catch block deletes it before re-raising and the success path deletes it
before returning. -/
theorem downloadAndUnzip_cleanup (env : DownloadEnv) (url outputDir : List Char)
    (filename : Option (List Char))
    (hfetch : env.fetchRejects = none) (hok : env.fetchOk = true) :
    (downloadAndUnzip env url outputDir filename).2 = false :=
  downloadAndUnzip_tempGone env url outputDir filename

/-- Concrete downloader oracle for claim C6: the unzip process exits with
code 1 after the archive was written. -/
def c6FailUnzipEnv : DownloadEnv :=
  { fetchRejects := none
    fetchOk := true
    fetchStatus := 200
    fetchBodyText := []
    bodyNull := false
    pipelineFails := none
    unzipSpawnErr := none
    unzipStatus := 1
    unzipStderr := "bad zip".data
    preTempExists := false
    listing := [] }

/-- Witness for claim C6 at a concrete extraction failure. -/
theorem downloadAndUnzip_cleanup_witness :
    (c6FailUnzipEnv.fetchRejects = none ∧ c6FailUnzipEnv.fetchOk = true) ∧
    (downloadAndUnzip c6FailUnzipEnv "/u".data "/o".data none).2 = false :=
  ⟨⟨rfl, rfl⟩, downloadAndUnzip_cleanup c6FailUnzipEnv "/u".data "/o".data none rfl rfl⟩

/-- Claim C9: downloadAndUnzip signals failure only by raising: every call
that returns without raising returns success = true, and consequently the
orchestrator branch handling a returned result with success = false (which
would produce errorSummary "Failed to download or extract logs") is
unreachable for every input. -/
theorem downloadAndUnzip_raisesOnly :
    (∀ (env : DownloadEnv) (url outputDir : List Char) (filename : Option (List Char))
        (r : DownloadResult) (b : Bool),
      downloadAndUnzip env url outputDir filename = (Except.ok r, b) → r.success = true) ∧
    (∀ (env : OrchEnv) (url outputDir folderName : List Char),
      (analyzeWorkflowLogs env url outputDir folderName).errorSummary
        ≠ "Failed to download or extract logs".data) := by
  constructor
  · exact downloadAndUnzip_ok_success
  · intro env url outputDir folderName
    unfold analyzeWorkflowLogs
    rcases hM : env.mkdirFails with _ | msg
    · simp only [hM]
      rcases hD : downloadAndUnzip env.dl url (pathJoin outputDir env.timestamp) none
        with ⟨res, b⟩
      rcases res with e | r
      · simp only [hD]
        simp [orchestratorErrorResult]
      · have hs := downloadAndUnzip_ok_success env.dl url (pathJoin outputDir env.timestamp)
          none r b hD
        simp only [hD]
        rcases hA : env.analysisThrows with _ | m
        · simp only [hA]
          simp only [hs]
          simp only [Bool.true_eq_false, if_false]
          exact analyzeBazelLogs_summary_ne env.fs r.extractedDirectory folderName
        · simp only [hA]
          simp [hs, orchestratorErrorResult]
    · simp only [hM]
      simp [orchestratorErrorResult]

/-- Concrete downloader oracle for claim C9 on which every step succeeds. -/
def c9OkEnv : DownloadEnv :=
  { fetchRejects := none
    fetchOk := true
    fetchStatus := 200
    fetchBodyText := []
    bodyNull := false
    pipelineFails := none
    unzipSpawnErr := none
    unzipStatus := 0
    unzipStderr := []
    preTempExists := false
    listing := ["Bazel Build and Test".data] }

/-- The value downloadAndUnzip returns on the c9OkEnv oracle. -/
def c9OkResult : DownloadResult :=
  { success := true
    message := "File downloaded and unzipped successfully to ".data ++ "/o".data
    extractedDirectory := "/o".data
    files := ["Bazel Build and Test".data] }

/-- Witness for claim C9 at a concrete successful download. -/
theorem downloadAndUnzip_raisesOnly_witness :
    (downloadAndUnzip c9OkEnv "/u".data "/o".data none = (Except.ok c9OkResult, false)) ∧
    c9OkResult.success = true :=
  ⟨rfl, downloadAndUnzip_raisesOnly.1 c9OkEnv "/u".data "/o".data none c9OkResult false rfl⟩



/-- Claim C7: analyzeWorkflowLogs converts every error raised at any stage
(directory creation, archive fetch, analysis) into the uniform failure
result with errorSummary "Error analyzing workflow logs" and the error
message as errorDetails, instead of letting the exception escape (the
embedding is total); and when the archive fetcher fails, the log analyzer
is not invoked (the result is independent of the filesystem) and the
result carries the fetcher message. -/
theorem analyzeWorkflowLogs_boundary (env : OrchEnv) (url outputDir folderName : List Char) :
    (∀ msg, env.mkdirFails = some msg →
      analyzeWorkflowLogs env url outputDir folderName = orchestratorErrorResult msg) ∧
    (∀ e b, env.mkdirFails = none →
      downloadAndUnzip env.dl url (pathJoin outputDir env.timestamp) none
        = (Except.error e, b) →
      analyzeWorkflowLogs env url outputDir folderName = orchestratorErrorResult e ∧
      ∀ g : FS, analyzeWorkflowLogs { env with fs := g } url outputDir folderName
          = analyzeWorkflowLogs env url outputDir folderName) ∧
    (∀ msg r b, env.mkdirFails = none →
      downloadAndUnzip env.dl url (pathJoin outputDir env.timestamp) none
        = (Except.ok r, b) →
      env.analysisThrows = some msg →
      analyzeWorkflowLogs env url outputDir folderName = orchestratorErrorResult msg) := by
  refine ⟨?_, ?_, ?_⟩
  · intro msg hM
    simp [analyzeWorkflowLogs, hM]
  · intro e b hM hD
    constructor
    · simp [analyzeWorkflowLogs, hM, hD]
    · intro g
      simp [analyzeWorkflowLogs, hM, hD]
  · intro msg r b hM hD hA
    have hs := downloadAndUnzip_ok_success env.dl url (pathJoin outputDir env.timestamp)
      none r b hD
    simp [analyzeWorkflowLogs, hM, hD, hA, hs]

/-- Trivial filesystem for the claim C7 oracles. -/
def c7Fs : FS :=
  { existsDir := fun _ => false
    readdir := fun _ => []
    readFile := fun _ => [] }

/-- Orchestrator oracle for claim C7 whose mkdir throws. -/
def c7MkdirFailEnv : OrchEnv :=
  { timestamp := "T".data
    mkdirFails := some "EACCES: permission denied".data
    dl := c9OkEnv
    analysisThrows := none
    fs := c7Fs }

/-- Orchestrator oracle for claim C7 whose download raises. -/
def c7DlFailEnv : OrchEnv :=
  { timestamp := "T".data
    mkdirFails := none
    dl := c6FailUnzipEnv
    analysisThrows := none
    fs := c7Fs }

/-- Orchestrator oracle for claim C7 whose analysis stage raises. -/
def c7AnaFailEnv : OrchEnv :=
  { timestamp := "T".data
    mkdirFails := none
    dl := c9OkEnv
    analysisThrows := some "EIO: read error".data
    fs := c7Fs }

/-- The message downloadAndUnzip raises on the c6FailUnzipEnv oracle. -/
def c7DlErrMsg : List Char :=
  "Unzip process exited with code 1: bad zip".data

/-- The value downloadAndUnzip returns inside the c7AnaFailEnv run. -/
def c7DlOkResult : DownloadResult :=
  { success := true
    message := "File downloaded and unzipped successfully to ".data
      ++ pathJoin "/o".data "T".data
    extractedDirectory := pathJoin "/o".data "T".data
    files := ["Bazel Build and Test".data] }

/-- Witness for claim C7 at concrete failures of each stage. -/
theorem analyzeWorkflowLogs_boundary_witness :
    (analyzeWorkflowLogs c7MkdirFailEnv "/u".data "/o".data "Bazel build and test".data
      = orchestratorErrorResult "EACCES: permission denied".data) ∧
    (analyzeWorkflowLogs c7DlFailEnv "/u".data "/o".data "Bazel build and test".data
      = orchestratorErrorResult c7DlErrMsg) ∧
    (analyzeWorkflowLogs { c7DlFailEnv with fs := c1Fs } "/u".data "/o".data
        "Bazel build and test".data
      = analyzeWorkflowLogs c7DlFailEnv "/u".data "/o".data "Bazel build and test".data) ∧
    (analyzeWorkflowLogs c7AnaFailEnv "/u".data "/o".data "Bazel build and test".data
      = orchestratorErrorResult "EIO: read error".data) :=
  ⟨(analyzeWorkflowLogs_boundary c7MkdirFailEnv "/u".data "/o".data
      ("Bazel build and test".data)).1 ("EACCES: permission denied".data) rfl,
   ((analyzeWorkflowLogs_boundary c7DlFailEnv "/u".data "/o".data
      ("Bazel build and test".data)).2.1 c7DlErrMsg false rfl rfl).1,
   ((analyzeWorkflowLogs_boundary c7DlFailEnv "/u".data "/o".data
      ("Bazel build and test".data)).2.1 c7DlErrMsg false rfl rfl).2 c1Fs,
   (analyzeWorkflowLogs_boundary c7AnaFailEnv "/u".data "/o".data
      ("Bazel build and test".data)).2.2 ("EIO: read error".data) c7DlOkResult false
      rfl rfl rfl⟩



/-- A non-empty string is JavaScript-truthy. -/
theorem jsFalsy_some_ne (s : List Char) (h : s ≠ []) : jsFalsy (some s) = false := by
  cases s with
  | nil => exact absurd rfl h
  | cons a t => rfl

/-- isEmpty of a non-empty list is false. -/
theorem isEmpty_false_of_ne (s : List Char) (h : s ≠ []) : s.isEmpty = false := by
  cases s with
  | nil => exact absurd rfl h
  | cons a t => rfl

/-- Counterexample for claim C8 as stated: listCiWorkflowRuns takes owner
and repo parameters, yet with both parameters omitted and no configuration
values set it raises no error and proceeds to the network call against the
hardcoded askscio/scio repository; and with configuration values set it
does not use them (the request URL is unchanged). -/
theorem listCiWorkflowRuns_hardcoded_cex :
    listCiWorkflowRuns ⟨none, none, none⟩ none none
      = Except.ok ("https://api.github.com/repos/askscio/scio/actions/runs".data) ∧
    listCiWorkflowRuns ⟨some "octo".data, some "hello".data, none⟩ none none
      = Except.ok ("https://api.github.com/repos/askscio/scio/actions/runs".data) :=
  ⟨rfl, rfl⟩

/-- Claim C8 (amended): the four workflows.ts operations fall back to
GITHUB_OWNER / GITHUB_REPO (and GITHUB_WORKFLOW_ID for
listWorkflowRunsByWorkflowId) when a parameter is omitted, and raise a
descriptive error naming the missing value before any network call when
both the parameter and the configuration value are absent; the
ci_workflows.ts variants ignore those parameters, always target the
hardcoded askscio/scio repository, and never raise. -/
theorem workflowOps_envFallback (cfg : EnvConfig) (po pr wid : Option (List Char))
    (runId : Nat) :
    (∀ o r w, cfg.GITHUB_OWNER = some o → o ≠ [] → cfg.GITHUB_REPO = some r → r ≠ [] →
      cfg.GITHUB_WORKFLOW_ID = some w → w ≠ [] →
      listWorkflowRuns cfg none none = Except.ok (runsUrl o r) ∧
      getWorkflowRun cfg none none runId = Except.ok (runUrl o r runId) ∧
      listWorkflowRunsByWorkflowId cfg none none none
        = Except.ok (workflowRunsUrl o r w) ∧
      getWorkflowRunLogs cfg none none runId = Except.ok (runLogsUrl o r runId)) ∧
    (po = none → cfg.GITHUB_OWNER = none →
      listWorkflowRuns cfg po pr = Except.error ownerRequiredMsg ∧
      getWorkflowRun cfg po pr runId = Except.error ownerRequiredMsg ∧
      listWorkflowRunsByWorkflowId cfg po pr wid = Except.error ownerRequiredMsg ∧
      getWorkflowRunLogs cfg po pr runId = Except.error ownerRequiredMsg) ∧
    (∀ o, po = some o → o ≠ [] → pr = none → cfg.GITHUB_REPO = none →
      listWorkflowRuns cfg po pr = Except.error repoRequiredMsg ∧
      getWorkflowRun cfg po pr runId = Except.error repoRequiredMsg ∧
      listWorkflowRunsByWorkflowId cfg po pr wid = Except.error repoRequiredMsg ∧
      getWorkflowRunLogs cfg po pr runId = Except.error repoRequiredMsg) ∧
    (∀ o r, po = some o → o ≠ [] → pr = some r → r ≠ [] → wid = none →
      cfg.GITHUB_WORKFLOW_ID = none →
      listWorkflowRunsByWorkflowId cfg po pr wid = Except.error workflowIdRequiredMsg) ∧
    (listCiWorkflowRuns cfg po pr
        = Except.ok ("https://api.github.com/repos/askscio/scio/actions/runs".data) ∧
     getCiWorkflowRun cfg po pr runId
        = Except.ok ("https://api.github.com/repos/askscio/scio/actions/runs/".data
            ++ (toString runId).data) ∧
     listCiWorkflowRunsForBranch cfg po pr wid
        = Except.ok
            ("https://api.github.com/repos/askscio/scio/actions/workflows/bazel_pr_runner.yml/runs".data) ∧
     getCiWorkflowRunLogs cfg po pr runId
        = Except.ok ("https://api.github.com/repos/askscio/scio/actions/runs/".data
            ++ (toString runId).data ++ "/logs".data)) := by
  refine ⟨?_, ?_, ?_, ?_, rfl, rfl, rfl, rfl⟩
  · intro o r w ho hone hr hrne hw hwne
    refine ⟨?_, ?_, ?_, ?_⟩ <;>
      simp [listWorkflowRuns, getWorkflowRun, listWorkflowRunsByWorkflowId,
        getWorkflowRunLogs, getOwnerAndRepo, jsOr, Except.map, ho, hr, hw,
        jsFalsy_some_ne o hone, jsFalsy_some_ne r hrne, jsFalsy_some_ne w hwne]
  · intro hpo ho
    refine ⟨?_, ?_, ?_, ?_⟩ <;>
      simp [listWorkflowRuns, getWorkflowRun, listWorkflowRunsByWorkflowId,
        getWorkflowRunLogs, getOwnerAndRepo, jsOr, Except.map, hpo, ho, jsFalsy]
  · intro o hpo hone hpr hr
    refine ⟨?_, ?_, ?_, ?_⟩ <;>
      simp [listWorkflowRuns, getWorkflowRun, listWorkflowRunsByWorkflowId,
        getWorkflowRunLogs, getOwnerAndRepo, jsOr, Except.map, hpo, hpr, hr, hone,
        isEmpty_false_of_ne o hone, jsFalsy]
  · intro o r hpo hone hpr hrne hwid hcfg
    simp [listWorkflowRunsByWorkflowId, getOwnerAndRepo, jsOr, hpo, hpr, hwid, hcfg,
      hone, hrne, isEmpty_false_of_ne o hone, isEmpty_false_of_ne r hrne, jsFalsy]

/-- Fully-populated configuration for the claim C8 witness. -/
def c8CfgFull : EnvConfig :=
  ⟨some "octo".data, some "hello".data, some "w.yml".data⟩

/-- Empty configuration for the claim C8 witness. -/
def c8CfgNone : EnvConfig := ⟨none, none, none⟩

/-- Witness for claim C8 (amended) at concrete configurations: the
environment fallback succeeds for all four workflows.ts operations
(GITHUB_WORKFLOW_ID included), each missing value raises its descriptive
error, and all four ci_workflows.ts variants return their hardcoded URLs
without raising. -/
theorem workflowOps_envFallback_witness :
    (listWorkflowRuns c8CfgFull none none
        = Except.ok (runsUrl "octo".data "hello".data)) ∧
    (getWorkflowRun c8CfgFull none none 7 = Except.ok (runUrl "octo".data "hello".data 7)) ∧
    (listWorkflowRunsByWorkflowId c8CfgFull none none none
        = Except.ok (workflowRunsUrl "octo".data "hello".data "w.yml".data)) ∧
    (getWorkflowRunLogs c8CfgFull none none 7
        = Except.ok (runLogsUrl "octo".data "hello".data 7)) ∧
    (listWorkflowRuns c8CfgNone none none = Except.error ownerRequiredMsg) ∧
    (listWorkflowRuns c8CfgNone (some "octo".data) none = Except.error repoRequiredMsg) ∧
    (getWorkflowRun c8CfgNone (some "octo".data) none 7 = Except.error repoRequiredMsg) ∧
    (listWorkflowRunsByWorkflowId c8CfgNone (some "octo".data) (some "hello".data) none
        = Except.error workflowIdRequiredMsg) ∧
    (listCiWorkflowRuns c8CfgNone none none
        = Except.ok ("https://api.github.com/repos/askscio/scio/actions/runs".data)) ∧
    (getCiWorkflowRun c8CfgNone none none 7
        = Except.ok ("https://api.github.com/repos/askscio/scio/actions/runs/7".data)) ∧
    (getCiWorkflowRunLogs c8CfgNone none none 7
        = Except.ok ("https://api.github.com/repos/askscio/scio/actions/runs/7/logs".data)) :=
  ⟨((workflowOps_envFallback c8CfgFull none none none 7).1
      ("octo".data) ("hello".data) ("w.yml".data)
      rfl (by decide) rfl (by decide) rfl (by decide)).1,
   ((workflowOps_envFallback c8CfgFull none none none 7).1
      ("octo".data) ("hello".data) ("w.yml".data)
      rfl (by decide) rfl (by decide) rfl (by decide)).2.1,
   ((workflowOps_envFallback c8CfgFull none none none 7).1
      ("octo".data) ("hello".data) ("w.yml".data)
      rfl (by decide) rfl (by decide) rfl (by decide)).2.2.1,
   ((workflowOps_envFallback c8CfgFull none none none 7).1
      ("octo".data) ("hello".data) ("w.yml".data)
      rfl (by decide) rfl (by decide) rfl (by decide)).2.2.2,
   ((workflowOps_envFallback c8CfgNone none none none 7).2.1 rfl rfl).1,
   ((workflowOps_envFallback c8CfgNone (some "octo".data) none none 7).2.2.1
      ("octo".data) rfl (by decide) rfl rfl).1,
   ((workflowOps_envFallback c8CfgNone (some "octo".data) none none 7).2.2.1
      ("octo".data) rfl (by decide) rfl rfl).2.1,
   (workflowOps_envFallback c8CfgNone (some "octo".data) (some "hello".data) none 7).2.2.2.1
      ("octo".data) ("hello".data) rfl (by decide) rfl (by decide) rfl rfl,
   ((workflowOps_envFallback c8CfgNone none none none 7).2.2.2.2).1,
   ((workflowOps_envFallback c8CfgNone none none none 7).2.2.2.2).2.1,
   ((workflowOps_envFallback c8CfgNone none none none 7).2.2.2.2).2.2.2⟩

/-- Filesystem for claim C10: on a case-sensitive filesystem exactly the
subfolder "Bazel Build and Test" of /x exists. -/
def c10Fs : FS :=
  { existsDir := fun p => decide (p = pathJoin "/x".data analyzeBazelLogsDefaultFolder)
    readdir := fun _ => []
    readFile := fun _ => [] }

/-- Claim C10: the orchestrator default folder name "Bazel build and test"
differs in letter case only from the analyzer default "Bazel Build and
Test"; since the analyzer's folder-existence check compares the joined
path exactly, calling the analyzer with the orchestrator default against
an extraction directory whose subfolder is named "Bazel Build and Test"
yields the failure "Bazel logs folder not found", while the analyzer
default does not. -/
theorem defaultFolderName_mismatch :
    analyzeWorkflowLogsDefaultFolder ≠ analyzeBazelLogsDefaultFolder ∧
    analyzeWorkflowLogsDefaultFolder.map Char.toLower
      = analyzeBazelLogsDefaultFolder.map Char.toLower ∧
    analyzeBazelLogs c10Fs "/x".data analyzeWorkflowLogsDefaultFolder
      = folderNotFoundResult analyzeWorkflowLogsDefaultFolder
          (pathJoin "/x".data analyzeWorkflowLogsDefaultFolder) ∧
    (analyzeBazelLogs c10Fs "/x".data analyzeWorkflowLogsDefaultFolder).errorSummary
      = "Bazel logs folder not found".data ∧
    (analyzeBazelLogs c10Fs "/x".data analyzeBazelLogsDefaultFolder).errorSummary
      ≠ "Bazel logs folder not found".data := by
  refine ⟨by decide, by decide, by decide, by decide, by decide⟩

end GithubMcp
